import Mathlib

set_option maxRecDepth 100000

/-!
Verification of the Ichipass Ichimoku cloud scanner.

The development shallowly embeds the signal-detection core of the repository:
the Ichimoku indicator engine (`indicators/ichimoku.py`), the breakout
detector (`scan/criteria.py`) and the scan orchestrator with its filter chain
(`scan/runner.py`).  Prices are modelled as rationals; a pandas `NaN` entry is
modelled as `Option.none`; python exceptions are modelled with `Except`.
-/

/-! ## Data model -/

/-- One OHLCV bar (`date` stands for the pandas index label). -/
structure Bar where
  date : Nat
  high : ℚ
  low : ℚ
  close : ℚ
  volume : ℚ
deriving DecidableEq, Repr

/-- One row of the merged price + indicator frame produced by
`calculate_indicators` (`data.join(ichimoku)` plus the `_eff` copies). -/
structure Row where
  date : Nat
  close : ℚ
  volume : ℚ
  tenkan : Option ℚ
  kijun : Option ℚ
  cloud_top : Option ℚ
  cloud_bottom : Option ℚ
  cloud_top_eff : Option ℚ
  cloud_bottom_eff : Option ℚ
deriving DecidableEq, Repr

/-- Scanner parameters (`IchimokuScanner.__init__`). -/
structure ScannerParams where
  tenkan_period : Nat
  kijun_period : Nat
  senkou_period : Nat
  lookback_not_above : Nat
  min_price : ℚ
  strict_cross : Bool
deriving DecidableEq, Repr

/-- The scanner built with the python constructor defaults
(9 / 26 / 52, lookback 10, min price 0, strict cross on). -/
def defaultScanner : ScannerParams :=
  { tenkan_period := 9, kijun_period := 26, senkou_period := 52,
    lookback_not_above := 10, min_price := 0, strict_cross := true }

/-- Match record emitted by `scan_symbol` (fields that python may fill with
`NaN` are `Option ℚ`). -/
structure MatchRecord where
  symbol : String
  date_yesterday : Nat
  close_y : ℚ
  cloud_top_y : ℚ
  cloud_bottom_y : Option ℚ
  distance_pct : ℚ
  lookback_checked : Nat
  avg_dollar_vol_20 : ℚ
  price_y : ℚ
  tenkan_y : Option ℚ
  kijun_y : Option ℚ
deriving DecidableEq, Repr

/-! ## Indicator engine (`indicators/ichimoku.py`) -/

/-- Value of `series.rolling(window=w).op()` at position `t`: the fold of `op`
over the trailing `w`-window, or `none` when fewer than `w` observations
exist (pandas' default `min_periods = window`). -/
def rollingVal (op : ℚ → ℚ → ℚ) (w : Nat) (xs : List ℚ) (t : Nat) : Option ℚ :=
  if w ≤ t + 1 then
    match (xs.take (t + 1)).drop (t + 1 - w) with
    | [] => none
    | y :: ys => some (ys.foldl op y)
  else none

/-- `series.rolling(window=w).op()` as a whole series. -/
def rollingOp (op : ℚ → ℚ → ℚ) (w : Nat) (xs : List ℚ) : List (Option ℚ) :=
  (List.range xs.length).map (rollingVal op w xs)

/-- pandas `series.shift(S)`: prepend `S` undefined entries, keep the length. -/
def oshift (S : Nat) (xs : List (Option ℚ)) : List (Option ℚ) :=
  (List.replicate S none ++ xs).take xs.length

/-- Elementwise `(a + b) / 2` with NaN propagation. -/
def omid (a b : Option ℚ) : Option ℚ :=
  Option.map₂ (fun x y => (x + y) / 2) a b

/-- The six output series of `calculate_ichimoku`. -/
structure IchimokuFrame where
  tenkan : List (Option ℚ)
  kijun : List (Option ℚ)
  senkou_a : List (Option ℚ)
  senkou_b : List (Option ℚ)
  cloud_top : List (Option ℚ)
  cloud_bottom : List (Option ℚ)
deriving DecidableEq, Repr

/-- The signature default `senkou_shift=26` of `calculate_ichimoku`. -/
def senkou_shift_default : Nat := 26

/-- `calculate_ichimoku(high, low, close, tenkan_period, kijun_period,
senkou_period, senkou_shift)`.  `np.maximum` / `np.minimum` propagate NaN,
hence `Option.map₂`.  The `close` series only supplies the frame index in
python and is unused here. -/
def calculate_ichimoku (high low _close : List ℚ)
    (tenkan_period kijun_period senkou_period senkou_shift : Nat) :
    IchimokuFrame :=
  let tenkan := List.zipWith omid
    (rollingOp max tenkan_period high) (rollingOp min tenkan_period low)
  let kijun := List.zipWith omid
    (rollingOp max kijun_period high) (rollingOp min kijun_period low)
  let senkou_a := oshift senkou_shift (List.zipWith omid tenkan kijun)
  let senkou_b := oshift senkou_shift
    (List.zipWith omid
      (rollingOp max senkou_period high) (rollingOp min senkou_period low))
  let cloud_top := List.zipWith (Option.map₂ max) senkou_a senkou_b
  let cloud_bottom := List.zipWith (Option.map₂ min) senkou_a senkou_b
  ⟨tenkan, kijun, senkou_a, senkou_b, cloud_top, cloud_bottom⟩

/-! ## Breakout detector (`scan/criteria.py`) -/

/-- `IchimokuScanner.has_sufficient_data`: at least `senkou_period + 26` bars
(the `26` is hard coded at the call site as `# 52 + 26 shift`). -/
def has_sufficient_data (p : ScannerParams) (data : List Bar) : Bool :=
  decide (p.senkou_period + 26 ≤ data.length)

/-- `IchimokuScanner.calculate_indicators`, generalised over the shift that is
passed to `calculate_ichimoku`.  The python method passes no shift argument,
see `calculate_indicators`. -/
def calculate_indicators_shift (p : ScannerParams) (shift : Nat)
    (data : List Bar) : List Row :=
  let ich := calculate_ichimoku (data.map (·.high)) (data.map (·.low))
    (data.map (·.close)) p.tenkan_period p.kijun_period p.senkou_period shift
  List.zipWith
    (fun b t =>
      { date := b.date, close := b.close, volume := b.volume,
        tenkan := (ich.tenkan[t]?).join, kijun := (ich.kijun[t]?).join,
        cloud_top := (ich.cloud_top[t]?).join,
        cloud_bottom := (ich.cloud_bottom[t]?).join,
        cloud_top_eff := (ich.cloud_top[t]?).join,
        cloud_bottom_eff := (ich.cloud_bottom[t]?).join })
    data (List.range data.length)

/-- `IchimokuScanner.calculate_indicators`: calls `calculate_ichimoku` with
the three periods only, so the signature default `senkou_shift=26` applies. -/
def calculate_indicators (p : ScannerParams) (data : List Bar) : List Row :=
  calculate_indicators_shift p senkou_shift_default data

/-- pandas `frame.iloc[-k]`: the element `k` places from the end, an
`IndexError` (here `none`) when the frame is shorter than `k`. -/
def ilocNeg (rows : List Row) (k : Nat) : Option Row :=
  if k ≤ rows.length then rows[rows.length - k]? else none

/-- `recent_data = data.tail(lookback_days + 1)`. -/
def recentWindow (p : ScannerParams) (rows : List Row) : List Row :=
  rows.drop (rows.length - (p.lookback_not_above + 1))

/-- `prior_data = recent_data.head(lookback_days)`; `prior_above` is the
`any(... > ...)` reduction with NaN comparing as false (`.fillna(False)`). -/
def prior_above_flag (p : ScannerParams) (recent : List Row) : Bool :=
  (recent.take p.lookback_not_above).any fun r =>
    match r.cloud_top_eff with
    | some c => decide (c < r.close)
    | none => false

/-- `IchimokuScanner.is_first_close_above_cloud` with the default
`lookback_days = self.lookback_not_above`.  `Except.error` models a python
`IndexError` escaping the method (caught later by `scan_symbol`). -/
def is_first_close_above_cloud (p : ScannerParams) (rows : List Row) :
    Except Unit (Bool × Option Row) :=
  if rows.length < p.lookback_not_above + 1 then Except.ok (false, none) else
  match ilocNeg (recentWindow p rows) 2 with
  | none => Except.error ()
  | some yesterday =>
    match yesterday.cloud_top_eff with
    | none => Except.ok (false, none)
    | some cloud_top_y =>
      if yesterday.close < p.min_price then Except.ok (false, none)
      else if ¬ cloud_top_y < yesterday.close then Except.ok (false, none)
      else if prior_above_flag p (recentWindow p rows) then Except.ok (false, none)
      else if p.strict_cross then
        match ilocNeg (recentWindow p rows) 3 with
        | none => Except.error ()
        | some day_before =>
          match day_before.cloud_top_eff with
          | none => Except.ok (false, none)
          | some cloud_top_p =>
            if cloud_top_p < day_before.close then Except.ok (false, none)
            else Except.ok (true, some yesterday)
      else Except.ok (true, some yesterday)

/-- `IchimokuScanner.scan_symbol`: sufficiency gate, indicators, detector,
then the derived record fields; every exception inside the `try` block
(including the detector's `IndexError`) is caught and turned into `None`. -/
def scan_symbol (p : ScannerParams) (symbol : String) (data : List Bar) :
    Option MatchRecord :=
  if ¬ has_sufficient_data p data then none else
  match is_first_close_above_cloud p (calculate_indicators p data) with
  | Except.error _ => none
  | Except.ok (false, _) => none
  | Except.ok (true, none) => none
  | Except.ok (true, some y) =>
    match y.cloud_top_eff with
    | none => none
    | some ct =>
      let recent_20 := data.drop (data.length - 20)
      let avg : ℚ := (recent_20.map fun b => b.close * b.volume).sum /
        (recent_20.length : ℚ)
      some { symbol := symbol, date_yesterday := y.date, close_y := y.close,
             cloud_top_y := ct, cloud_bottom_y := y.cloud_bottom_eff,
             distance_pct := (y.close - ct) / ct * 100,
             lookback_checked := p.lookback_not_above,
             avg_dollar_vol_20 := avg, price_y := y.close,
             tenkan_y := y.tenkan, kijun_y := y.kijun }

/-! ## Scan orchestrator and filter chain (`scan/runner.py`) -/

/-- A registered filter: `ScanRunner.register_filter` stores a callable and an
`enabled` flag; the callable may raise (`Except.error`). -/
structure ScanFilter where
  enabled : Bool
  run : String → List Bar → MatchRecord → Except Unit Bool

/-- `ScanRunner.apply_filters`: walk the registry in registration order,
skip disabled entries, exclude on the first `False` or exception. -/
def apply_filters (fs : List ScanFilter) (symbol : String) (data : List Bar)
    (result : MatchRecord) : Bool :=
  match fs with
  | [] => true
  | f :: rest =>
    if f.enabled then
      match f.run symbol data result with
      | Except.error _ => false
      | Except.ok b => if b then apply_filters rest symbol data result else false
    else apply_filters rest symbol data result

/-- python `dict` assignment `d[k] = v`: replace the value at an existing key
in place, otherwise append the binding at the end. -/
def dict_insert (k : String) (v : List Bar) :
    List (String × List Bar) → List (String × List Bar)
  | [] => [(k, v)]
  | (k', v') :: rest =>
    if k' = k then (k, v) :: rest else (k', v') :: dict_insert k v rest

/-- One completed fetch: a failed (`Except.error`) or empty result is
dropped with a log line, a successful one is stored in the symbol-keyed
`tickers_data` dict. -/
def ltd_insert (fetch : String → Except Unit (List Bar))
    (acc : List (String × List Bar)) (t : String) : List (String × List Bar) :=
  match fetch t with
  | Except.error _ => acc
  | Except.ok d => if d = [] then acc else dict_insert t d acc

/-- `ScanRunner.load_tickers_data`: one fetch task is submitted per element
of `tickers`.  The first component records the sequence of submitted fetches
(one `executor.submit` per list element), the second is the resulting
`tickers_data` dict. -/
def load_tickers_data (fetch : String → Except Unit (List Bar))
    (tickers : List String) : List String × List (String × List Bar) :=
  tickers.foldl (fun acc t => (acc.1 ++ [t], ltd_insert fetch acc.2 t)) ([], [])

/-- The body of `run_scan`'s per-symbol loop: `scan_symbol` (which may raise,
caught and logged by `run_scan`), then the filter chain on a candidate. -/
def runScanOn (comp : String → List Bar → Except Unit (Option MatchRecord))
    (fs : List ScanFilter) (entries : List (String × List Bar)) :
    List MatchRecord :=
  entries.filterMap fun e =>
    match comp e.1 e.2 with
    | Except.error _ => none
    | Except.ok none => none
    | Except.ok (some r) => if apply_filters fs e.1 e.2 r then some r else none

/-- `ScanRunner.run_scan`: dry runs return `[]`; otherwise load every ticker
and scan each loaded entry, collecting the surviving match records.  `comp`
stands for the (possibly raising) per-symbol `scanner.scan_symbol` call. -/
def run_scan (fetch : String → Except Unit (List Bar))
    (comp : String → List Bar → Except Unit (Option MatchRecord))
    (fs : List ScanFilter) (tickers : List String) (dry_run : Bool) :
    List MatchRecord :=
  if dry_run then [] else
  runScanOn comp fs (load_tickers_data fetch tickers).2

/-! ## Series lemmas -/

theorem zipWith_getElem? {α β γ : Type} (f : α → β → γ) (as : List α)
    (bs : List β) (i : Nat) :
    (List.zipWith f as bs)[i]? = Option.map₂ f as[i]? bs[i]? := by
  rw [List.getElem?_zipWith]
  cases as[i]? <;> cases bs[i]? <;> rfl

theorem omid_isSome (a b : Option ℚ) :
    (omid a b).isSome ↔ a.isSome ∧ b.isSome := by
  cases a <;> cases b <;> simp [omid, Option.map₂]

theorem join_some {α : Type} (x : Option α) : (some x).join = x := rfl

theorem map₂_some_join (f : Option ℚ → Option ℚ → Option ℚ) (a b : Option ℚ) :
    (Option.map₂ f (some a) (some b)).join = f a b := rfl

theorem length_rollingOp (op : ℚ → ℚ → ℚ) (w : Nat) (xs : List ℚ) :
    (rollingOp op w xs).length = xs.length := by
  simp [rollingOp]

theorem length_oshift (S : Nat) (xs : List (Option ℚ)) :
    (oshift S xs).length = xs.length := by
  simp [oshift]

theorem getElem?_rollingOp (op : ℚ → ℚ → ℚ) (w : Nat) {xs : List ℚ} {t : Nat}
    (ht : t < xs.length) :
    (rollingOp op w xs)[t]? = some (rollingVal op w xs t) := by
  simp [rollingOp, List.getElem?_range ht]

theorem rollingVal_isSome (op : ℚ → ℚ → ℚ) {w t : Nat} {xs : List ℚ}
    (ht : t < xs.length) :
    (rollingVal op w xs t).isSome ↔ 1 ≤ w ∧ w ≤ t + 1 := by
  unfold rollingVal
  by_cases hw : w ≤ t + 1
  · rw [if_pos hw]
    have hlen : ((xs.take (t + 1)).drop (t + 1 - w)).length = w := by
      rw [List.length_drop, List.length_take]
      omega
    cases hsl : (xs.take (t + 1)).drop (t + 1 - w) with
    | nil =>
      rw [hsl] at hlen
      simp only [List.length_nil] at hlen
      simp
      omega
    | cons y ys =>
      rw [hsl] at hlen
      simp only [Option.isSome_some, true_iff]
      exact ⟨by simp at hlen; omega, hw⟩
  · rw [if_neg hw]
    simp
    omega

theorem getElem?_oshift (S : Nat) (xs : List (Option ℚ)) (t : Nat) :
    (oshift S xs)[t]? =
      if t < xs.length then
        (if t < S then some none else xs[t - S]?)
      else none := by
  unfold oshift
  by_cases h1 : t < xs.length
  · rw [if_pos h1, List.getElem?_take_of_lt h1]
    by_cases h2 : t < S
    · rw [if_pos h2,
        List.getElem?_append_left (by simp only [List.length_replicate]; omega)]
      simp [List.getElem?_replicate_of_lt h2]
    · rw [if_neg h2, List.getElem?_append_right (by simp only [List.length_replicate]; omega)]
      simp [List.length_replicate]
  · rw [if_neg h1]
    apply List.getElem?_len_le
    simp only [List.length_take, List.length_append, List.length_replicate]
    omega

/-! ## Indicator frame lemmas -/

/-- The midpoint series `(high.rolling(w).max() + low.rolling(w).min()) / 2`. -/
def midSeries (w : Nat) (high low : List ℚ) : List (Option ℚ) :=
  List.zipWith omid (rollingOp max w high) (rollingOp min w low)

theorem senkou_a_eq (high low close : List ℚ) (tp kp sp S : Nat) :
    (calculate_ichimoku high low close tp kp sp S).senkou_a =
      oshift S (List.zipWith omid (midSeries tp high low) (midSeries kp high low)) :=
  rfl

theorem senkou_b_eq (high low close : List ℚ) (tp kp sp S : Nat) :
    (calculate_ichimoku high low close tp kp sp S).senkou_b =
      oshift S (midSeries sp high low) :=
  rfl

theorem cloud_top_eq (high low close : List ℚ) (tp kp sp S : Nat) :
    (calculate_ichimoku high low close tp kp sp S).cloud_top =
      List.zipWith (Option.map₂ max)
        (calculate_ichimoku high low close tp kp sp S).senkou_a
        (calculate_ichimoku high low close tp kp sp S).senkou_b :=
  rfl

theorem cloud_bottom_eq (high low close : List ℚ) (tp kp sp S : Nat) :
    (calculate_ichimoku high low close tp kp sp S).cloud_bottom =
      List.zipWith (Option.map₂ min)
        (calculate_ichimoku high low close tp kp sp S).senkou_a
        (calculate_ichimoku high low close tp kp sp S).senkou_b :=
  rfl

theorem length_midSeries (w : Nat) (high low : List ℚ) :
    (midSeries w high low).length = min high.length low.length := by
  simp [midSeries, List.length_zipWith, length_rollingOp]

theorem getElem?_midSeries (w : Nat) {high low : List ℚ} {j : Nat}
    (hj : j < min high.length low.length) :
    (midSeries w high low)[j]? =
      some (omid (rollingVal max w high j) (rollingVal min w low j)) := by
  rw [midSeries, zipWith_getElem?,
    getElem?_rollingOp max w (by omega), getElem?_rollingOp min w (by omega)]
  rfl

theorem midSeries_val_isSome {w : Nat} {high low : List ℚ} {j : Nat}
    (hw : 1 ≤ w) (hj : j < min high.length low.length) :
    (omid (rollingVal max w high j) (rollingVal min w low j)).isSome ↔
      w ≤ j + 1 := by
  rw [omid_isSome, rollingVal_isSome max (by omega), rollingVal_isSome min (by omega)]
  constructor
  · exact fun hc => hc.1.2
  · exact fun hle => ⟨⟨hw, hle⟩, hw, hle⟩

theorem length_senkou_a (high low close : List ℚ) (tp kp sp S : Nat) :
    (calculate_ichimoku high low close tp kp sp S).senkou_a.length =
      min high.length low.length := by
  rw [senkou_a_eq, length_oshift, List.length_zipWith,
    length_midSeries, length_midSeries]
  omega

theorem length_senkou_b (high low close : List ℚ) (tp kp sp S : Nat) :
    (calculate_ichimoku high low close tp kp sp S).senkou_b.length =
      min high.length low.length := by
  rw [senkou_b_eq, length_oshift, length_midSeries]

/-! ## Claim C2: shift correctness of the indicator engine -/

/-- Ascending price series of 30 bars used to refute the second half of the
shift-correctness claim. -/
def c2_data : List ℚ := (List.range 30).map fun i => (i : ℚ)

/-- C2 counterexample: with `senkou_shift = 26` and the default periods
9/26/52 on a 30-bar ascending series, the entries at index 26 of `senkou_a`
and `senkou_b` are still undefined — index `S` is *not* the first defined
entry (the rolling windows push the first defined entry further right). -/
theorem senkou_entry_S_undefined :
    ((calculate_ichimoku c2_data c2_data c2_data 9 26 52 26).senkou_a)[26]? =
      some none ∧
    ((calculate_ichimoku c2_data c2_data c2_data 9 26 52 26).senkou_b)[26]? =
      some none := by
  decide

/-- C2 amended: for positive periods, the first `S` entries of
`senkou_a`/`senkou_b` are undefined, and within the series an entry is
defined exactly when its index `t` satisfies
`S + max tenkan_period kijun_period ≤ t + 1` (for `senkou_a`), respectively
`S + senkou_period ≤ t + 1` (for `senkou_b`); hence the first defined entries
sit at indices `S + max tenkan_period kijun_period - 1` and
`S + senkou_period - 1`, not at `S`. -/
theorem senkou_shift_semantics (high low close : List ℚ) (tp kp sp S : Nat)
    (htp : 1 ≤ tp) (hkp : 1 ≤ kp) (hsp : 1 ≤ sp) :
    (∀ t, t < S → t < min high.length low.length →
      (calculate_ichimoku high low close tp kp sp S).senkou_a[t]? = some none ∧
      (calculate_ichimoku high low close tp kp sp S).senkou_b[t]? = some none)
    ∧ (∀ t, t < min high.length low.length →
      ((((calculate_ichimoku high low close tp kp sp S).senkou_a[t]?).join.isSome ↔
          S + max tp kp ≤ t + 1)
        ∧ (((calculate_ichimoku high low close tp kp sp S).senkou_b[t]?).join.isSome ↔
          S + sp ≤ t + 1))) := by
  have hlpre : (List.zipWith omid (midSeries tp high low)
      (midSeries kp high low)).length = min high.length low.length := by
    rw [List.length_zipWith, length_midSeries, length_midSeries]
    omega
  constructor
  · intro t htS htm
    constructor
    · rw [senkou_a_eq, getElem?_oshift, if_pos (by omega : t < (List.zipWith omid
        (midSeries tp high low) (midSeries kp high low)).length), if_pos htS]
    · rw [senkou_b_eq, getElem?_oshift, if_pos (by rw [length_midSeries]; omega),
        if_pos htS]
  · intro t htm
    constructor
    · rw [senkou_a_eq, getElem?_oshift, if_pos (by omega : t < (List.zipWith omid
        (midSeries tp high low) (midSeries kp high low)).length)]
      by_cases htS : t < S
      · rw [if_pos htS]
        simp only [Option.join]
        constructor
        · intro hco
          simp at hco
        · intro hle
          omega
      · rw [if_neg htS]
        have htSm : t - S < min high.length low.length := by omega
        rw [zipWith_getElem?, getElem?_midSeries tp htSm, getElem?_midSeries kp htSm,
          map₂_some_join, omid_isSome, midSeries_val_isSome htp htSm,
          midSeries_val_isSome hkp htSm]
        omega
    · rw [senkou_b_eq, getElem?_oshift, if_pos (by rw [length_midSeries]; omega)]
      by_cases htS : t < S
      · rw [if_pos htS]
        simp only [Option.join]
        constructor
        · intro hco
          simp at hco
        · intro hle
          omega
      · rw [if_neg htS]
        have htSm : t - S < min high.length low.length := by omega
        rw [getElem?_midSeries sp htSm, join_some, midSeries_val_isSome hsp htSm]
        omega

/-- C2 amended-claim witness at a concrete input. -/
theorem senkou_shift_semantics_witness :
    ((calculate_ichimoku [(5 : ℚ)] [5] [5] 1 1 1 0).senkou_a[0]?).join.isSome ↔
      0 + max 1 1 ≤ 0 + 1 :=
  ((senkou_shift_semantics [(5 : ℚ)] [5] [5] 1 1 1 0 (by decide) (by decide)
    (by decide)).2 0 (by decide)).1

/-! ## Claim C6: cloud envelope invariant -/

/-- C6: wherever both senkou spans are defined, `cloud_top` is their maximum,
`cloud_bottom` their minimum, and `cloud_top ≥ cloud_bottom`; wherever either
span is undefined, both cloud series are undefined rather than defaulted. -/
theorem cloud_envelope (high low close : List ℚ) (tp kp sp S t : Nat)
    (F : IchimokuFrame) (hF : F = calculate_ichimoku high low close tp kp sp S) :
    (∀ a b, F.senkou_a[t]? = some (some a) → F.senkou_b[t]? = some (some b) →
      F.cloud_top[t]? = some (some (max a b)) ∧
      F.cloud_bottom[t]? = some (some (min a b)) ∧ min a b ≤ max a b)
    ∧ ((F.senkou_a[t]? = some none ∨ F.senkou_b[t]? = some none) →
      F.cloud_top[t]? = some none ∧ F.cloud_bottom[t]? = some none) := by
  subst hF
  constructor
  · intro a b ha hb
    rw [cloud_top_eq, cloud_bottom_eq, zipWith_getElem?, zipWith_getElem?, ha, hb]
    exact ⟨rfl, rfl, min_le_max⟩
  · intro hor
    have hlen : t < (calculate_ichimoku high low close tp kp sp S).senkou_a.length
        ∧ t < (calculate_ichimoku high low close tp kp sp S).senkou_b.length := by
      rw [length_senkou_a, length_senkou_b]
      rcases hor with ha | hb
      · obtain ⟨hlt, -⟩ := List.getElem?_eq_some_iff.1 ha
        rw [length_senkou_a] at hlt
        omega
      · obtain ⟨hlt, -⟩ := List.getElem?_eq_some_iff.1 hb
        rw [length_senkou_b] at hlt
        omega
    obtain ⟨hla, hlb⟩ := hlen
    rw [cloud_top_eq, cloud_bottom_eq, zipWith_getElem?, zipWith_getElem?]
    rcases hor with ha | hb
    · rw [ha, List.getElem?_eq_getElem hlb]
      cases (calculate_ichimoku high low close tp kp sp S).senkou_b[t] <;>
        simp [Option.map₂]
    · rw [hb, List.getElem?_eq_getElem hla]
      cases (calculate_ichimoku high low close tp kp sp S).senkou_a[t] <;>
        simp [Option.map₂]

/-! ## Detector lemmas -/

/-- The slice `recent_data.head(lookback_days)` contains the `iloc[-2]` bar
("yesterday") itself, so once yesterday closed strictly above the cloud the
`prior_above` reduction is necessarily true. -/
theorem prior_above_of_yesterday (p : ScannerParams) (recent : List Row)
    (y : Row) (ct : ℚ) (hlen : recent.length = p.lookback_not_above + 1)
    (hy : ilocNeg recent 2 = some y) (hct : y.cloud_top_eff = some ct)
    (habove : ct < y.close) : prior_above_flag p recent = true := by
  unfold ilocNeg at hy
  by_cases h2 : 2 ≤ recent.length
  · rw [if_pos h2] at hy
    have hL1 : 1 ≤ p.lookback_not_above := by omega
    have hidx : recent.length - 2 = p.lookback_not_above - 1 := by omega
    have hlt : p.lookback_not_above - 1 < p.lookback_not_above := by omega
    have htake : (recent.take p.lookback_not_above)[p.lookback_not_above - 1]? =
        some y := by
      rw [List.getElem?_take_of_lt hlt, ← hidx]
      exact hy
    have hmem : y ∈ recent.take p.lookback_not_above := List.getElem?_mem htake
    unfold prior_above_flag
    rw [List.any_eq_true]
    refine ⟨y, hmem, ?_⟩
    rw [hct]
    exact decide_eq_true habove
  · rw [if_neg h2] at hy
    exact absurd hy (by simp)

/-- Because the prior window includes yesterday, the detector can only ever
produce `ok (false, none)` (or raise): no input whatsoever is reported as a
match. -/
theorem is_first_always_false (p : ScannerParams) (rows : List Row)
    (b : Bool) (oy : Option Row)
    (h : is_first_close_above_cloud p rows = Except.ok (b, oy)) :
    b = false ∧ oy = none := by
  have fin : ∀ {b' : Bool} {oy' : Option Row},
      Except.ok (ε := Unit) ((false : Bool), (none : Option Row)) =
        Except.ok (b', oy') → b' = false ∧ oy' = none := by
    intro b' oy' hh
    injection hh with h1
    injection h1 with h2 h3
    exact ⟨h2.symm, h3.symm⟩
  unfold is_first_close_above_cloud at h
  by_cases h1 : rows.length < p.lookback_not_above + 1
  · rw [if_pos h1] at h
    exact fin h
  · rw [if_neg h1] at h
    have hlen : (recentWindow p rows).length = p.lookback_not_above + 1 := by
      unfold recentWindow
      rw [List.length_drop]
      omega
    cases hy : ilocNeg (recentWindow p rows) 2 with
    | none =>
      rw [hy] at h
      exact Except.noConfusion h
    | some yesterday =>
      rw [hy] at h
      dsimp only at h
      cases hct : yesterday.cloud_top_eff with
      | none =>
        rw [hct] at h
        exact fin h
      | some ct =>
        rw [hct] at h
        dsimp only at h
        by_cases hmp : yesterday.close < p.min_price
        · rw [if_pos hmp] at h
          exact fin h
        · rw [if_neg hmp] at h
          by_cases hab : ¬ ct < yesterday.close
          · rw [if_pos hab] at h
            exact fin h
          · rw [if_neg hab] at h
            push_neg at hab
            have hpa : prior_above_flag p (recentWindow p rows) = true :=
              prior_above_of_yesterday p (recentWindow p rows) yesterday ct
                hlen hy hct hab
            rw [hpa] at h
            rw [if_pos rfl] at h
            exact fin h

/-- `scan_symbol` never emits a match record at all, on any input. -/
theorem scan_symbol_always_none (p : ScannerParams) (s : String)
    (data : List Bar) : scan_symbol p s data = none := by
  unfold scan_symbol
  by_cases hs : ¬ has_sufficient_data p data
  · rw [if_pos hs]
  · rw [if_neg hs]
    cases hr : is_first_close_above_cloud p (calculate_indicators p data) with
    | error e =>
      rfl
    | ok pr =>
      obtain ⟨b, oy⟩ := pr
      obtain ⟨hb, ho⟩ := is_first_always_false p _ b oy hr
      subst hb
      subst ho
      rfl

/-- C6 witness at a concrete input where both senkou spans are defined. -/
theorem cloud_envelope_witness :
    (calculate_ichimoku [(5 : ℚ)] [5] [5] 1 1 1 0).cloud_top[0]? =
      some (some (max (5 : ℚ) 5))
    ∧ (calculate_ichimoku [(5 : ℚ)] [5] [5] 1 1 1 0).cloud_bottom[0]? =
      some (some (min (5 : ℚ) 5))
    ∧ min (5 : ℚ) 5 ≤ max (5 : ℚ) 5 :=
  (cloud_envelope [5] [5] [5] 1 1 1 0 0 _ rfl).1 5 5
    (by with_unfolding_all decide) (by with_unfolding_all decide)

/-! ## Claim C1: first-occurrence rule (code defect) -/

/-- 89 constant-price bars with a single breakout close at index 87
("yesterday" for the detector): every condition of the first-occurrence
claim holds, yet the scanner reports no match. -/
def c1_data : List Bar :=
  (List.range 89).map fun i =>
    { date := i, high := if i = 87 then 1000 else 10,
      low := if i = 87 then 1000 else 10,
      close := if i = 87 then 1000 else 10, volume := 1 }

/-- C1, evaluated at the failing input: the series has sufficient history,
yesterday (index 87) closes at 1000 strictly above its defined cloud top 10,
the bar before it closes at 10 on the cloud (so the strict-cross condition
holds), and none of the ten bars preceding yesterday closes above its cloud
top — yet `scan_symbol` returns no match, because
`recent_data.head(lookback)` erroneously includes yesterday itself in the
no-prior-breakout test. -/
theorem first_occurrence_failing_input :
    has_sufficient_data defaultScanner c1_data = true
    ∧ ((ilocNeg (recentWindow defaultScanner
        (calculate_indicators defaultScanner c1_data)) 2).map
        fun y => (y.cloud_top_eff, y.close)) = some (some 10, 1000)
    ∧ ((ilocNeg (recentWindow defaultScanner
        (calculate_indicators defaultScanner c1_data)) 3).map
        fun y => (y.cloud_top_eff, y.close)) = some (some 10, 10)
    ∧ (((calculate_indicators defaultScanner c1_data).drop 77).take 10).all
        (fun r => !(match r.cloud_top_eff with
                    | some c => decide (c < r.close)
                    | none => false)) = true
    ∧ (10 : ℚ) < 1000
    ∧ scan_symbol defaultScanner "X" c1_data = none := by
  refine ⟨by decide, by with_unfolding_all decide, by with_unfolding_all decide,
    by with_unfolding_all decide, by decide, ?_⟩
  exact scan_symbol_always_none defaultScanner "X" c1_data

/-! ## Claim C5: insufficient history is no-match, not an error -/

/-- C5: with fewer than `senkou_period + 26` bars (26 being the pipeline's
fixed senkou shift), `scan_symbol` returns no match; the embedding is a total
function, so no exception escapes. -/
theorem insufficient_history_no_match (p : ScannerParams) (s : String)
    (data : List Bar) (h : data.length < p.senkou_period + 26) :
    scan_symbol p s data = none := by
  unfold scan_symbol
  rw [if_pos]
  simp only [has_sufficient_data]
  simp
  omega

/-- C5 witness: a concrete short series. -/
theorem insufficient_history_no_match_witness :
    ([] : List Bar).length < defaultScanner.senkou_period + 26
    ∧ scan_symbol defaultScanner "A" [] = none :=
  ⟨by decide, insufficient_history_no_match defaultScanner "A" [] (by decide)⟩

/-! ## Claim C7: strict-above exclusivity -/

/-- C7: when yesterday's close exactly equals yesterday's cloud top the
detector reports no match (the `close > cloud_top` test is strict), and any
reported match requires yesterday's close strictly above a defined cloud
top. -/
theorem strict_above_exclusive (p : ScannerParams) (rows : List Row) :
    (∀ y, ilocNeg (recentWindow p rows) 2 = some y →
      y.cloud_top_eff = some y.close →
      is_first_close_above_cloud p rows = Except.ok (false, none))
    ∧ (∀ oy, is_first_close_above_cloud p rows = Except.ok (true, oy) →
      ∃ y ct, oy = some y ∧ y.cloud_top_eff = some ct ∧ ct < y.close) := by
  constructor
  · intro y hy hct
    unfold is_first_close_above_cloud
    by_cases h1 : rows.length < p.lookback_not_above + 1
    · rw [if_pos h1]
    · rw [if_neg h1, hy]
      dsimp only
      rw [hct]
      dsimp only
      by_cases hmp : y.close < p.min_price
      · rw [if_pos hmp]
      · rw [if_neg hmp, if_pos (lt_irrefl y.close)]
  · intro oy h
    obtain ⟨hb, -⟩ := is_first_always_false p rows true oy h
    exact absurd hb (by decide)

/-- 89 constant-price bars: yesterday's close equals its cloud top. -/
def c7_data : List Bar :=
  (List.range 89).map fun i => { date := i, high := 10, low := 10, close := 10, volume := 1 }

/-- C7 witness: on the constant series the detector reports no match. -/
theorem strict_above_exclusive_witness :
    is_first_close_above_cloud defaultScanner
      (calculate_indicators defaultScanner c7_data) = Except.ok (false, none) :=
  (strict_above_exclusive defaultScanner
      (calculate_indicators defaultScanner c7_data)).1
    ⟨87, 10, 1, some 10, some 10, some 10, some 10, some 10, some 10⟩
    (by with_unfolding_all decide) (by with_unfolding_all decide)

/-! ## Orchestrator lemmas -/

theorem load_tickers_data_fold (fetch : String → Except Unit (List Bar)) :
    ∀ (tickers : List String) (log : List String)
      (acc : List (String × List Bar)),
      tickers.foldl (fun a t => (a.1 ++ [t], ltd_insert fetch a.2 t)) (log, acc)
        = (log ++ tickers, tickers.foldl (ltd_insert fetch) acc) := by
  intro tickers
  induction tickers with
  | nil => intro log acc; simp
  | cons t ts ih =>
    intro log acc
    simp only [List.foldl_cons]
    rw [ih]
    simp

theorem load_tickers_data_fst (fetch : String → Except Unit (List Bar))
    (tickers : List String) :
    (load_tickers_data fetch tickers).1 = tickers := by
  unfold load_tickers_data
  rw [load_tickers_data_fold]
  simp

theorem load_tickers_data_snd (fetch : String → Except Unit (List Bar))
    (tickers : List String) :
    (load_tickers_data fetch tickers).2 =
      tickers.foldl (ltd_insert fetch) [] := by
  unfold load_tickers_data
  rw [load_tickers_data_fold]

theorem mem_keys_dict_insert (a k : String) (v : List Bar)
    (l : List (String × List Bar)) :
    a ∈ (dict_insert k v l).map Prod.fst ↔ a = k ∨ a ∈ l.map Prod.fst := by
  induction l with
  | nil => simp [dict_insert]
  | cons e rest ih =>
    obtain ⟨k', v'⟩ := e
    by_cases hk : k' = k
    · simp [dict_insert, hk, ih]
      try tauto
    · simp [dict_insert, hk, ih]
      try tauto

theorem nodup_keys_dict_insert (k : String) (v : List Bar)
    (l : List (String × List Bar)) (h : (l.map Prod.fst).Nodup) :
    ((dict_insert k v l).map Prod.fst).Nodup := by
  induction l with
  | nil => simp [dict_insert]
  | cons e rest ih =>
    obtain ⟨k', v'⟩ := e
    simp only [List.map_cons, List.nodup_cons] at h
    by_cases hk : k' = k
    · unfold dict_insert
      rw [if_pos hk]
      rw [List.map_cons, List.nodup_cons]
      subst hk
      exact h
    · unfold dict_insert
      rw [if_neg hk, List.map_cons, List.nodup_cons]
      refine ⟨?_, ih h.2⟩
      rw [mem_keys_dict_insert]
      push_neg
      exact ⟨hk, h.1⟩

theorem nodup_keys_ltd_fold (fetch : String → Except Unit (List Bar)) :
    ∀ (tickers : List String) (acc : List (String × List Bar)),
      (acc.map Prod.fst).Nodup →
      ((tickers.foldl (ltd_insert fetch) acc).map Prod.fst).Nodup := by
  intro tickers
  induction tickers with
  | nil => intro acc h; exact h
  | cons t ts ih =>
    intro acc h
    simp only [List.foldl_cons]
    apply ih
    unfold ltd_insert
    cases fetch t with
    | error e => exact h
    | ok d =>
      dsimp only
      by_cases hd : d = []
      · rw [if_pos hd]; exact h
      · rw [if_neg hd]; exact nodup_keys_dict_insert t d acc h

theorem filter_dict_insert (s0 k : String) (v : List Bar)
    (acc : List (String × List Bar)) :
    (dict_insert k v acc).filter (fun e => decide (e.1 ≠ s0)) =
      if k = s0 then acc.filter (fun e => decide (e.1 ≠ s0))
      else dict_insert k v (acc.filter (fun e => decide (e.1 ≠ s0))) := by
  induction acc with
  | nil =>
    by_cases hk : k = s0
    · simp [dict_insert, List.filter_cons, hk]
    · simp [dict_insert, List.filter_cons, hk]
  | cons e rest ih =>
    obtain ⟨k', v'⟩ := e
    by_cases hkk : k' = k <;> by_cases hk' : k' = s0 <;> by_cases hk : k = s0 <;>
      simp_all [dict_insert, List.filter_cons]

theorem ltd_insert_fetch_isolate (fetch : String → Except Unit (List Bar))
    (s0 t : String) (acc : List (String × List Bar)) :
    ltd_insert (fun s => if s = s0 then Except.error () else fetch s)
        (acc.filter (fun e => decide (e.1 ≠ s0))) t =
      (ltd_insert fetch acc t).filter (fun e => decide (e.1 ≠ s0)) := by
  unfold ltd_insert
  dsimp only
  by_cases ht : t = s0
  · rw [if_pos ht]
    dsimp only
    cases hf : fetch t with
    | error e => rfl
    | ok d =>
      dsimp only
      by_cases hd : d = []
      · simp only [if_pos hd]
      · simp only [if_neg hd]
        rw [filter_dict_insert, if_pos ht]
  · rw [if_neg ht]
    cases hf : fetch t with
    | error e => rfl
    | ok d =>
      dsimp only
      by_cases hd : d = []
      · simp only [if_pos hd]
      · simp only [if_neg hd]
        rw [filter_dict_insert, if_neg ht]

theorem ltd_fold_fetch_isolate (fetch : String → Except Unit (List Bar))
    (s0 : String) :
    ∀ (tickers : List String) (acc : List (String × List Bar)),
      tickers.foldl
          (ltd_insert (fun s => if s = s0 then Except.error () else fetch s))
          (acc.filter (fun e => decide (e.1 ≠ s0)))
        = (tickers.foldl (ltd_insert fetch) acc).filter
            (fun e => decide (e.1 ≠ s0)) := by
  intro tickers
  induction tickers with
  | nil => intro acc; rfl
  | cons t ts ih =>
    intro acc
    simp only [List.foldl_cons]
    rw [ltd_insert_fetch_isolate, ih]

theorem runScanOn_comp_isolate
    (comp : String → List Bar → Except Unit (Option MatchRecord))
    (fs : List ScanFilter) (s0 : String) :
    ∀ entries : List (String × List Bar),
      runScanOn (fun s => if s = s0 then fun _ => Except.error () else comp s)
          fs entries
        = runScanOn comp fs
            (entries.filter (fun e => decide (e.1 ≠ s0))) := by
  intro entries
  induction entries with
  | nil => rfl
  | cons e es ih =>
    by_cases he : e.1 = s0
    · have h1 : ((if e.1 = s0 then (fun _ => Except.error ()) else comp e.1) e.2 :
          Except Unit (Option MatchRecord)) = Except.error () := by
        rw [if_pos he]
      have h2 : (decide (e.1 ≠ s0)) = false := by simp [he]
      unfold runScanOn
      rw [List.filterMap_cons, List.filter_cons, h2]
      dsimp only
      rw [h1]
      exact ih
    · have h1 : ((if e.1 = s0 then (fun _ => Except.error ()) else comp e.1) e.2 :
          Except Unit (Option MatchRecord)) = comp e.1 e.2 := by
        rw [if_neg he]
      have h2 : (decide (e.1 ≠ s0)) = true := by simp [he]
      unfold runScanOn
      rw [List.filterMap_cons, List.filter_cons, h2]
      dsimp only
      rw [h1, if_pos rfl, List.filterMap_cons]
      have ih2 := ih
      unfold runScanOn at ih2
      rw [ih2]

/-! ## Filter chain lemmas -/

theorem apply_filters_true_iff (fs : List ScanFilter) (s : String)
    (d : List Bar) (r : MatchRecord) :
    apply_filters fs s d r = true ↔
      ∀ g ∈ fs, g.enabled = true → g.run s d r = Except.ok true := by
  induction fs with
  | nil => simp [apply_filters]
  | cons f rest ih =>
    by_cases hf : f.enabled
    · cases hr : f.run s d r with
      | error e =>
        simp [apply_filters, hf, hr]
      | ok b =>
        cases b
        · simp [apply_filters, hf, hr]
        · simp [apply_filters, hf, hr, ih]
    · have hf' : f.enabled = false := by
        revert hf
        cases f.enabled <;> simp
      simp [apply_filters, hf', ih]

theorem apply_filters_disabled_skipped (fs₁ fs₂ : List ScanFilter)
    (f : ScanFilter) (s : String) (d : List Bar) (r : MatchRecord)
    (hf : f.enabled = false) :
    apply_filters (fs₁ ++ f :: fs₂) s d r = apply_filters (fs₁ ++ fs₂) s d r := by
  induction fs₁ with
  | nil => simp [apply_filters, hf]
  | cons g gs ih =>
    by_cases hg : g.enabled
    · cases hr : g.run s d r with
      | error e => simp [apply_filters, hg, hr]
      | ok b => cases b <;> simp [apply_filters, hg, hr, ih]
    · have hg' : g.enabled = false := by
        revert hg
        cases g.enabled <;> simp
      simp [apply_filters, hg', ih]

theorem runScanOn_filters_subset
    (comp : String → List Bar → Except Unit (Option MatchRecord))
    (fs : List ScanFilter) (entries : List (String × List Bar))
    (x : MatchRecord) (hx : x ∈ runScanOn comp fs entries) :
    x ∈ runScanOn comp [] entries := by
  unfold runScanOn at hx ⊢
  obtain ⟨e, he, hfe⟩ := List.mem_filterMap.1 hx
  refine List.mem_filterMap.2 ⟨e, he, ?_⟩
  revert hfe
  cases comp e.1 e.2 with
  | error e' => simp
  | ok o =>
    cases o with
    | none => simp
    | some r =>
      by_cases hap : apply_filters fs e.1 e.2 r
      · simp [hap, apply_filters]
      · simp [hap]

/-! ## Claim C4: filter chain semantics -/

/-- C4: the chain accepts iff every enabled filter accepts; a disabled filter
is never consulted (it can be removed without changing the outcome, whatever
its callable does); once an enabled filter fails (returns `false` or raises)
the chain evaluates to exclude and the filters after it are irrelevant; and
filtering only ever removes records from a scan run, never adds any. -/
theorem filter_chain_semantics (s : String) (d : List Bar) (r : MatchRecord)
    (fs fs₁ fs₂ fs₂' : List ScanFilter) (f : ScanFilter)
    (fetch : String → Except Unit (List Bar))
    (comp : String → List Bar → Except Unit (Option MatchRecord))
    (tickers : List String) (dry : Bool) (x : MatchRecord) :
    (apply_filters fs s d r = true ↔
      ∀ g ∈ fs, g.enabled = true → g.run s d r = Except.ok true)
    ∧ (f.enabled = false →
      apply_filters (fs₁ ++ f :: fs₂) s d r = apply_filters (fs₁ ++ fs₂) s d r)
    ∧ (f.enabled = true → ¬ f.run s d r = Except.ok true →
      apply_filters (fs₁ ++ f :: fs₂) s d r = false
      ∧ apply_filters (fs₁ ++ f :: fs₂) s d r =
          apply_filters (fs₁ ++ f :: fs₂') s d r)
    ∧ (x ∈ run_scan fetch comp fs tickers dry →
      x ∈ run_scan fetch comp [] tickers dry) := by
  refine ⟨apply_filters_true_iff fs s d r,
    apply_filters_disabled_skipped fs₁ fs₂ f s d r, ?_, ?_⟩
  · intro hen hnot
    have hfail : ∀ fs₂'' : List ScanFilter,
        apply_filters (fs₁ ++ f :: fs₂'') s d r = false := by
      intro fs₂''
      have hne : ¬ apply_filters (fs₁ ++ f :: fs₂'') s d r = true := by
        intro hall
        exact hnot ((apply_filters_true_iff _ s d r).1 hall f (by simp) hen)
      revert hne
      cases apply_filters (fs₁ ++ f :: fs₂'') s d r <;> simp
    exact ⟨hfail fs₂, by rw [hfail fs₂, hfail fs₂']⟩
  · intro hx
    unfold run_scan at hx ⊢
    cases dry with
    | true => exact hx
    | false =>
      simp only [if_neg (by decide : ¬ (false : Bool) = true)] at hx ⊢
      exact runScanOn_filters_subset comp fs _ x hx

/-- An always-true enabled filter, an always-false enabled filter and a
disabled filter used by the C4 witness. -/
def filterTrue : ScanFilter := ⟨true, fun _ _ _ => Except.ok true⟩

def filterFalse : ScanFilter := ⟨true, fun _ _ _ => Except.ok false⟩

def filterOff : ScanFilter := ⟨false, fun _ _ _ => Except.error ()⟩

/-- A concrete match record for the filter chain witness. -/
def rec0 : MatchRecord :=
  ⟨"A", 0, 10, 10, some 10, 0, 10, 10, 10, some 10, some 10⟩

/-- C4 witness: dropping a disabled filter changes nothing; a failing enabled
filter forces exclusion. -/
theorem filter_chain_semantics_witness :
    apply_filters [filterOff, filterTrue] "A" [] rec0 =
      apply_filters [filterTrue] "A" [] rec0
    ∧ apply_filters [filterTrue, filterFalse] "A" [] rec0 = false :=
  ⟨(filter_chain_semantics "A" [] rec0 [] [] [filterTrue] [] filterOff
      (fun _ => Except.ok []) (fun _ _ => Except.ok none) [] false rec0).2.1 rfl,
    ((filter_chain_semantics "A" [] rec0 [] [filterTrue] [] [] filterFalse
      (fun _ => Except.ok []) (fun _ _ => Except.ok none) [] false rec0).2.2.1 rfl
      (by simp [filterFalse])).1⟩

/-! ## Claim C3: per-symbol failure isolation -/

/-- C3: failing one symbol's fetch, or one symbol's detection/filtering
computation, yields exactly the run obtained by scanning every loaded entry
except that symbol's — the run still completes and returns the surviving
matches of every other symbol unchanged. -/
theorem per_symbol_failure_isolation
    (fetch : String → Except Unit (List Bar))
    (comp : String → List Bar → Except Unit (Option MatchRecord))
    (fs : List ScanFilter) (tickers : List String) (s0 : String) :
    run_scan (fun s => if s = s0 then Except.error () else fetch s) comp fs
        tickers false
      = runScanOn comp fs (((load_tickers_data fetch tickers).2).filter
          (fun e => decide (e.1 ≠ s0)))
    ∧ run_scan fetch
        (fun s => if s = s0 then fun _ => Except.error () else comp s) fs
        tickers false
      = runScanOn comp fs (((load_tickers_data fetch tickers).2).filter
          (fun e => decide (e.1 ≠ s0))) := by
  constructor
  · unfold run_scan
    rw [if_neg (by decide : ¬ (false : Bool) = true)]
    rw [load_tickers_data_snd, load_tickers_data_snd]
    have h0 : ([] : List (String × List Bar)) =
        ([] : List (String × List Bar)).filter (fun e => decide (e.1 ≠ s0)) := rfl
    rw [h0, ltd_fold_fetch_isolate]
    rfl
  · unfold run_scan
    rw [if_neg (by decide : ¬ (false : Bool) = true)]
    rw [runScanOn_comp_isolate]

/-! ## Claim C8: per-symbol determinism -/

/-- C8: the scan body is a pure function of the loaded (symbol, series)
entries and the parameters, so any reordering of the completion schedule
permutes the result list without changing any per-symbol record; in
particular two runs on identical inputs produce identical match records. -/
theorem detector_determinism (p : ScannerParams) (fs : List ScanFilter)
    (entries entries' : List (String × List Bar))
    (hperm : entries.Perm entries') :
    (runScanOn (fun s d => Except.ok (scan_symbol p s d)) fs entries).Perm
      (runScanOn (fun s d => Except.ok (scan_symbol p s d)) fs entries') := by
  unfold runScanOn
  exact hperm.filterMap _

/-- C8 witness: two completion orders of the same two symbols. -/
theorem detector_determinism_witness :
    (runScanOn (fun s d => Except.ok (scan_symbol defaultScanner s d)) []
        [("A", []), ("B", [])]).Perm
      (runScanOn (fun s d => Except.ok (scan_symbol defaultScanner s d)) []
        [("B", []), ("A", [])]) :=
  detector_determinism defaultScanner [] _ _ (List.Perm.swap _ _ _)

/-! ## Claim C9: symbol de-duplication -/

/-- A one-bar series used by the C9 counterexample. -/
def oneBar : Bar := ⟨0, 10, 10, 10, 1⟩

/-- C9 counterexample: submitting the ticker list `["A", "A"]` issues two
fetches for `"A"` — the orchestrator does not collapse duplicates before
fetching (the CLI front end de-duplicates upstream instead); the loaded dict
still carries `"A"` once, so it is scored once. -/
theorem dedup_counterexample :
    (load_tickers_data (fun _ => Except.ok [oneBar]) ["A", "A"]).1.count "A" = 2
    ∧ (load_tickers_data (fun _ => Except.ok [oneBar]) ["A", "A"]).2.map
        Prod.fst = ["A"] := by
  constructor
  · rfl
  · rfl

/-- C9 amended: the orchestrator issues one fetch per occurrence in the input
ticker list (no de-duplication before fetching), while the loaded
`tickers_data` dict has pairwise distinct symbols, so each distinct symbol is
scanned exactly once per run. -/
theorem fetch_per_occurrence (fetch : String → Except Unit (List Bar))
    (tickers : List String) :
    (load_tickers_data fetch tickers).1 = tickers
    ∧ ((load_tickers_data fetch tickers).2.map Prod.fst).Nodup := by
  refine ⟨load_tickers_data_fst fetch tickers, ?_⟩
  rw [load_tickers_data_snd]
  exact nodup_keys_ltd_fold fetch tickers [] (by simp)

/-! ## Claim C10: the senkou shift is fixed at 26 -/

/-- C10: for every scanner configuration the indicator pipeline is the
shift-26 instance — `calculate_indicators` passes no shift, so the signature
default `senkou_shift=26` applies — and the sufficiency gate hard-codes
`senkou_period + 26`; no scanner parameter can alter either. -/
theorem senkou_shift_fixed (p : ScannerParams) (data : List Bar) :
    calculate_indicators p data = calculate_indicators_shift p 26 data
    ∧ senkou_shift_default = 26
    ∧ has_sufficient_data p data =
        decide (p.senkou_period + 26 ≤ data.length) :=
  ⟨rfl, rfl, rfl⟩

/-- C10 witness: a concrete configuration with unusual periods still uses
shift 26. -/
theorem senkou_shift_fixed_witness :
    calculate_indicators ⟨3, 7, 11, 4, 1, false⟩ [oneBar] =
      calculate_indicators_shift ⟨3, 7, 11, 4, 1, false⟩ 26 [oneBar] :=
  (senkou_shift_fixed ⟨3, 7, 11, 4, 1, false⟩ [oneBar]).1


